import Mathlib

/-!
Verification development for the `canusb` crate: a driver for the Lawicel
CANUSB ASCII protocol.  The Rust sources are shallowly embedded below:
machine integers (`u8`, `u16`, `u32`) become `Nat` with explicit masking
(`% 2 ^ w`, which agrees with the source's `& 0x7FF`-style masks), byte
slices become `List Nat`, and fallible operations return `Option` or
`Except`.  Serial-port I/O is embedded by scripting the transport: a
scripted port carries the list of outcomes its `write`/`read` calls will
produce, and the handshake/receive code is a pure function of that script.
-/

set_option maxRecDepth 4000

namespace CanUsb

/-! ## Byte-level helpers shared by the embeddings

`hexDigitChar`, `fmtHex` model Rust's `write!("{:0wX}")` uppercase hex
formatting; `parseRadix16` models `uN::from_str_radix(s, 16)` (optional
sign, at least one digit, per-type overflow bound); `utf8Valid` models
`std::str::from_utf8` validity on a byte slice. -/

/-- Uppercase hex digit character (as a byte) of a nibble, as produced by
Rust's `{:X}` formatting. -/
def hexDigitChar (n : Nat) : Nat :=
  if n < 10 then 48 + n else 55 + n

/-- Fixed-width big-endian hex rendering (exactly `w` digits of `n`,
truncating high bits beyond `16 ^ w`). -/
def toHexFixed : Nat → Nat → List Nat
  | 0, _ => []
  | w + 1, n => toHexFixed w (n / 16) ++ [hexDigitChar (n % 16)]

/-- Minimal (unpadded) uppercase hex rendering of `n`; `[48]` (i.e. `"0"`)
for zero. -/
def natToHexAux : Nat → Nat → List Nat
  | 0, _ => []
  | fuel + 1, n => if n = 0 then [] else natToHexAux fuel (n / 16) ++ [hexDigitChar (n % 16)]

def natToHex (n : Nat) : List Nat :=
  if n = 0 then [48] else natToHexAux n n

/-- Rust `write!("{:0wX}", n)`: `w` is a *minimum* width — zero-padded to
`w` digits when `n` fits, minimal digits otherwise. -/
def fmtHex (w n : Nat) : List Nat :=
  if n < 16 ^ w then toHexFixed w n else natToHex n

/-- `char::to_digit(16)` on an ASCII byte: value of a hex digit
(`0-9`, `a-f`, `A-F`), `none` otherwise. -/
def hexVal (c : Nat) : Option Nat :=
  if 48 ≤ c ∧ c ≤ 57 then some (c - 48)
  else if 65 ≤ c ∧ c ≤ 70 then some (c - 55)
  else if 97 ≤ c ∧ c ≤ 102 then some (c - 87)
  else none

/-- `u8::is_ascii_hexdigit`. -/
def isAsciiHexdigit (c : Nat) : Bool :=
  (48 ≤ c ∧ c ≤ 57) ∨ (65 ≤ c ∧ c ≤ 70) ∨ (97 ≤ c ∧ c ≤ 102)

/-- Accumulating hex-digit fold used by `from_str_radix`. -/
def parseHexCore : List Nat → Nat → Option Nat
  | [], acc => some acc
  | c :: rest, acc =>
    match hexVal c with
    | none => none
    | some d => parseHexCore rest (acc * 16 + d)

/-- Unsigned digit run of `from_str_radix`: at least one digit, all valid,
value within the integer type's bound `max` (overflow otherwise). -/
def parseUCore (max : Nat) (l : List Nat) : Option Nat :=
  if l = [] then none
  else
    match parseHexCore l 0 with
    | none => none
    | some v => if v ≤ max then some v else none

/-- Negative digit run for an unsigned type: `checked_sub` from zero
succeeds only while every digit is zero (so `"-00"` parses to `0`). -/
def parseNegCore (l : List Nat) : Option Nat :=
  if l = [] then none
  else if l.all (fun c => c = 48) then some 0 else none

/-- `uN::from_str_radix(s, 16)` on the bytes of `s`, with type bound
`max` (e.g. `255` for `u8`): optional leading `+`/`-` sign, then a
non-empty run of hex digits. -/
def parseRadix16 (max : Nat) (l : List Nat) : Option Nat :=
  match l with
  | [] => none
  | c :: rest =>
    if c = 43 then parseUCore max rest
    else if c = 45 then parseNegCore rest
    else parseUCore max (c :: rest)

/-- Continuation byte `0x80..=0xBF` of a UTF-8 sequence. -/
def isCont (c : Nat) : Bool := 128 ≤ c ∧ c ≤ 191

/-- Range check of the first continuation byte of a 3-byte UTF-8
sequence (excludes overlong encodings and surrogates). -/
def utf8First3 (b c : Nat) : Bool :=
  if b = 224 then decide (160 ≤ c ∧ c ≤ 191)
  else if b = 237 then decide (128 ≤ c ∧ c ≤ 159)
  else isCont c

/-- Range check of the first continuation byte of a 4-byte UTF-8
sequence (excludes overlong encodings and code points above U+10FFFF). -/
def utf8First4 (b c : Nat) : Bool :=
  if b = 240 then decide (144 ≤ c ∧ c ≤ 191)
  else if b = 244 then decide (128 ≤ c ∧ c ≤ 143)
  else isCont c

/-- Consume the continuation bytes of one multi-byte UTF-8 sequence with
lead byte `b`, returning the remainder (`none` = invalid). -/
def utf8Step (b : Nat) (rest : List Nat) : Option (List Nat) :=
  if b < 194 then none
  else if b ≤ 223 then
    match rest with
    | c :: r => if isCont c then some r else none
    | [] => none
  else if b ≤ 239 then
    match rest with
    | c :: d :: r => if utf8First3 b c && isCont d then some r else none
    | _ => none
  else if b ≤ 244 then
    match rest with
    | c :: d :: e :: r =>
      if utf8First4 b c && isCont d && isCont e then some r else none
    | _ => none
  else none

/-- Fuelled worker for `utf8Valid`; `utf8Step` shortens the list, so fuel
equal to the list length always suffices. -/
def utf8ValidAux : Nat → List Nat → Bool
  | _, [] => true
  | 0, _ :: _ => false
  | fuel + 1, b :: rest =>
    if b < 128 then utf8ValidAux fuel rest
    else
      match utf8Step b rest with
      | none => false
      | some r => utf8ValidAux fuel r

/-- `std::str::from_utf8` validity of a byte run (RFC 3629: no overlong
encodings, no surrogates, max U+10FFFF). -/
def utf8Valid (l : List Nat) : Bool := utf8ValidAux l.length l

/-- Rust slice indexing `v.get(a..b)`: `Some` iff `a ≤ b ≤ v.len()`. -/
def sliceGet (v : List Nat) (a b : Nat) : Option (List Nat) :=
  if a ≤ b ∧ b ≤ v.length then some ((v.drop a).take (b - a)) else none

/-! ## `src/frame.rs` — CAN frame data model, builder, and wire decoder -/

def STANDARD_MASK : Nat := 0x7FF
def EXTENDED_MASK : Nat := 0x1FFFFFFF

inductive FrameType where
  | DataFrame
  | RemoteFrame
deriving DecidableEq, Repr

inductive IdentifierFormat where
  | Standard
  | Extended
deriving DecidableEq, Repr

/-- `CanFrame` struct: `can_id`/`timestamp` are `u32`/`u16` fields (kept as
`Nat`), `data` is the `[u8; 8]` array (kept as an 8-element list). -/
structure CanFrame where
  can_id : Nat
  identifier_format : IdentifierFormat
  frame_type : FrameType
  dlc : Nat
  data : List Nat
  timestamp : Nat
deriving DecidableEq, Repr

/-- `CanFrame::can_id()`: the stored identifier masked per format
(`& 0x7FF` = `% 2^11`, `& 0x1FFFFFFF` = `% 2^29`). -/
def CanFrame.canId (f : CanFrame) : Nat :=
  match f.identifier_format with
  | .Standard => f.can_id % 2 ^ 11
  | .Extended => f.can_id % 2 ^ 29

/-- `CanFrame::data()`: the payload slice `&data[..dlc]`. -/
def CanFrame.dataSlice (f : CanFrame) : List Nat :=
  f.data.take f.dlc

/-- `CanFrame::is_remote_frame()`. -/
def CanFrame.is_remote_frame (f : CanFrame) : Bool :=
  match f.frame_type with
  | .RemoteFrame => true
  | _ => false

/-- `impl PartialEq for CanFrame`: mismatched formats or frame types are
unequal; otherwise compare masked id, timestamp and payload slices
(`dlc` only enters through the slice lengths). -/
def canFrameEq (a b : CanFrame) : Bool :=
  (a.identifier_format = b.identifier_format)
    && (a.frame_type = b.frame_type)
    && (a.canId = b.canId)
    && (a.timestamp = b.timestamp)
    && (a.dataSlice = b.dataSlice)

structure CanFrameBuilder where
  can_id : Nat
  identifier_format : IdentifierFormat
  frame_type : FrameType
  dlc : Nat
  data : List Nat
  timestamp : Nat
deriving DecidableEq, Repr

/-- `CanFrameBuilder::new()`. -/
def CanFrameBuilder.new : CanFrameBuilder :=
  { can_id := 0
    identifier_format := .Standard
    frame_type := .DataFrame
    dlc := 0
    data := List.replicate 8 0
    timestamp := 0 }

/-- `CanFrameBuilder::can_id`: stores the identifier masked per the given
format and records the format. -/
def CanFrameBuilder.canId (b : CanFrameBuilder) (can_id : Nat)
    (format : IdentifierFormat) : CanFrameBuilder :=
  match format with
  | .Standard => { b with can_id := can_id % 2 ^ 11, identifier_format := format }
  | .Extended => { b with can_id := can_id % 2 ^ 29, identifier_format := format }

/-- `CanFrameBuilder::frame_type`: when switching to `RemoteFrame` it
zeroes `dlc` and `data`, but it never stores the requested frame type. -/
def CanFrameBuilder.frame_type' (b : CanFrameBuilder) (ft : FrameType) :
    CanFrameBuilder :=
  if b.frame_type ≠ ft then
    if ft = .RemoteFrame then { b with dlc := 0, data := List.replicate 8 0 }
    else b
  else b

/-- `CanFrameBuilder::dlc`. -/
def CanFrameBuilder.setDlc (b : CanFrameBuilder) (dlc : Nat) : CanFrameBuilder :=
  { b with dlc := dlc }

/-- `CanFrameBuilder::data`: copies the first `min(len, 8)` bytes into the
8-byte array. -/
def CanFrameBuilder.setData (b : CanFrameBuilder) (l : List Nat) : CanFrameBuilder :=
  let n := min l.length 8
  { b with data := l.take n ++ b.data.drop n }

/-- `CanFrameBuilder::timestamp`. -/
def CanFrameBuilder.setTimestamp (b : CanFrameBuilder) (v : Nat) : CanFrameBuilder :=
  { b with timestamp := v }

/-- `impl From<CanFrameBuilder> for CanFrame`: copies every field but
hardcodes `frame_type: FrameType::DataFrame`. -/
def canFrameFromBuilder (b : CanFrameBuilder) : CanFrame :=
  { can_id := b.can_id
    identifier_format := b.identifier_format
    frame_type := .DataFrame
    dlc := b.dlc
    data := b.data
    timestamp := b.timestamp }

inductive CanFrameParseError where
  | InvalidSize
  | MessageStartError
  | IntegerParseError
  | Utf8Error
  | DlcError
  | DataError
  | TimestampError
  | MessageTerminationError
deriving DecidableEq, Repr

/-- The `str::from_utf8` + `from_str_radix` pipeline applied to a slice
already obtained from `value.get(range)`: UTF-8 failure and integer-parse
failure are distinguished exactly as in the source. -/
def parseField (max : Nat) (slice : List Nat) : Except CanFrameParseError Nat :=
  if utf8Valid slice then
    match parseRadix16 max slice with
    | some v => .ok v
    | none => .error .IntegerParseError
  else .error .Utf8Error

/-- Slice + parse at a `value.get(a..b)` call site of the decoder
(`None` from `get` is `DataError`). -/
def parseAt (max : Nat) (v : List Nat) (a b : Nat) : Except CanFrameParseError Nat :=
  match sliceGet v a b with
  | none => .error .DataError
  | some s => parseField max s

/-- First `match value.len()` of `TryFrom<&[u8]> for CanFrame`: the
expected identifier format determined purely by total length. -/
def expectedFormatOfLen : Nat → Option IdentifierFormat
  | 6 | 8 | 10 | 12 | 14 | 16 | 18 | 20 | 22 | 24 | 26 => some .Standard
  | 11 | 13 | 15 | 17 | 19 | 21 | 23 | 25 | 27 | 29 | 31 => some .Extended
  | _ => none

/-- Leading-marker check of the decoder: `t`/`r` for Standard,
`T`/`R` for Extended. -/
def startMarker (fmt : IdentifierFormat) (b : Nat) : Option FrameType :=
  match fmt with
  | .Standard => if b = 116 then some .DataFrame else if b = 114 then some .RemoteFrame else none
  | .Extended => if b = 84 then some .DataFrame else if b = 82 then some .RemoteFrame else none

/-- The `match value.len()` block computing `has_timestamp` (after the
`dlc > 8` check), including its dlc-based disambiguation of shared
lengths and the `InvalidSize` rejections of impossible remote lengths. -/
def hasTimestampOfLen (len : Nat) (ft : FrameType) (dlc : Nat) :
    Except CanFrameParseError Bool :=
  match len, ft with
  | 6, .DataFrame => if dlc ≠ 0 then .error .DlcError else .ok false
  | 6, .RemoteFrame => .ok false
  | 8, .DataFrame => if dlc ≠ 1 then .error .DlcError else .ok false
  | 8, .RemoteFrame => .error .InvalidSize
  | 10, .DataFrame =>
    if dlc ≠ 2 ∧ dlc ≠ 0 then .error .DlcError else .ok (dlc = 0)
  | 10, .RemoteFrame => .ok true
  | 12, .DataFrame =>
    if dlc ≠ 3 ∧ dlc ≠ 1 then .error .DlcError else .ok (dlc = 1)
  | 12, .RemoteFrame => .error .InvalidSize
  | 14, .DataFrame =>
    if dlc ≠ 4 ∧ dlc ≠ 2 then .error .DlcError else .ok (dlc = 2)
  | 14, .RemoteFrame => .error .InvalidSize
  | 16, .DataFrame =>
    if dlc ≠ 5 ∧ dlc ≠ 3 then .error .DlcError else .ok (dlc = 3)
  | 16, .RemoteFrame => .error .InvalidSize
  | 18, .DataFrame =>
    if dlc ≠ 6 ∧ dlc ≠ 4 then .error .DlcError else .ok (dlc = 4)
  | 18, .RemoteFrame => .error .InvalidSize
  | 20, .DataFrame =>
    if dlc ≠ 7 ∧ dlc ≠ 5 then .error .DlcError else .ok (dlc = 5)
  | 20, .RemoteFrame => .error .InvalidSize
  | 22, .DataFrame =>
    if dlc ≠ 8 ∧ dlc ≠ 6 then .error .DlcError else .ok (dlc = 6)
  | 22, .RemoteFrame => .error .InvalidSize
  | 24, .DataFrame => if dlc ≠ 7 then .error .DlcError else .ok true
  | 24, .RemoteFrame => .error .InvalidSize
  | 26, .DataFrame => if dlc ≠ 8 then .error .DlcError else .ok true
  | 26, .RemoteFrame => .error .InvalidSize
  | 11, .DataFrame => if dlc ≠ 0 then .error .DlcError else .ok false
  | 11, .RemoteFrame => .ok false
  | 13, .DataFrame => if dlc ≠ 1 then .error .DlcError else .ok false
  | 13, .RemoteFrame => .error .InvalidSize
  | 15, .DataFrame =>
    if dlc ≠ 2 ∧ dlc ≠ 0 then .error .DlcError else .ok (dlc = 0)
  | 15, .RemoteFrame => .ok true
  | 17, .DataFrame =>
    if dlc ≠ 3 ∧ dlc ≠ 1 then .error .DlcError else .ok (dlc = 1)
  | 17, .RemoteFrame => .error .InvalidSize
  | 19, .DataFrame =>
    if dlc ≠ 4 ∧ dlc ≠ 2 then .error .DlcError else .ok (dlc = 2)
  | 19, .RemoteFrame => .error .InvalidSize
  | 21, .DataFrame =>
    if dlc ≠ 5 ∧ dlc ≠ 3 then .error .DlcError else .ok (dlc = 3)
  | 21, .RemoteFrame => .error .InvalidSize
  | 23, .DataFrame =>
    if dlc ≠ 6 ∧ dlc ≠ 4 then .error .DlcError else .ok (dlc = 4)
  | 23, .RemoteFrame => .error .InvalidSize
  | 25, .DataFrame =>
    if dlc ≠ 7 ∧ dlc ≠ 5 then .error .DlcError else .ok (dlc = 5)
  | 25, .RemoteFrame => .error .InvalidSize
  | 27, .DataFrame =>
    if dlc ≠ 8 ∧ dlc ≠ 6 then .error .DlcError else .ok (dlc = 6)
  | 27, .RemoteFrame => .error .InvalidSize
  | 29, .DataFrame => if dlc ≠ 7 then .error .DlcError else .ok true
  | 29, .RemoteFrame => .error .InvalidSize
  | 31, .DataFrame => if dlc ≠ 8 then .error .DlcError else .ok true
  | 31, .RemoteFrame => .error .InvalidSize
  | _, _ => .error .InvalidSize

/-- Payload-extraction loop of the decoder: parse `count` hex byte pairs
starting at `pos`, in ascending order, first failure wins. -/
def extractData (v : List Nat) (pos : Nat) : Nat → Except CanFrameParseError (List Nat)
  | 0 => .ok []
  | k + 1 =>
    match parseAt 255 v pos (pos + 2) with
    | .error e => .error e
    | .ok b =>
      match extractData v (pos + 2) k with
      | .error e => .error e
      | .ok bs => .ok (b :: bs)

/-- Timestamp slice range, per identifier format and frame type. -/
def timestampRange (fmt : IdentifierFormat) (ft : FrameType) (dlc : Nat) : Nat × Nat :=
  match fmt, ft with
  | .Standard, .DataFrame => (5 + 2 * dlc, 5 + 2 * dlc + 4)
  | .Standard, .RemoteFrame => (5, 9)
  | .Extended, .DataFrame => (10 + 2 * dlc, 10 + 2 * dlc + 4)
  | .Extended, .RemoteFrame => (10, 14)

/-- `impl TryFrom<&[u8]> for CanFrame`. -/
def tryFrom (value : List Nat) : Except CanFrameParseError CanFrame :=
  match expectedFormatOfLen value.length with
  | none => .error .InvalidSize
  | some identifier_format =>
  match startMarker identifier_format (value.getD 0 0) with
  | none => .error .MessageStartError
  | some frame_type =>
  match (match identifier_format with
         | .Standard => parseAt 0xFFFFFFFF value 1 4
         | .Extended => parseAt 0xFFFFFFFF value 1 9) with
  | .error e => .error e
  | .ok can_id =>
  match (match identifier_format with
         | .Standard => parseAt 255 value 4 5
         | .Extended => parseAt 255 value 9 10) with
  | .error e => .error e
  | .ok dlc =>
  if dlc > 8 then .error .DlcError else
  match hasTimestampOfLen value.length frame_type dlc with
  | .error e => .error e
  | .ok has_timestamp =>
  match (match frame_type, identifier_format with
         | .DataFrame, .Standard => extractData value 5 dlc
         | .DataFrame, .Extended => extractData value 10 dlc
         | .RemoteFrame, _ => .ok []) with
  | .error e => .error e
  | .ok bytes =>
  let buf := bytes ++ List.replicate (8 - bytes.length) 0
  match (if has_timestamp then
           let r := timestampRange identifier_format frame_type dlc
           parseAt 0xFFFF value r.1 r.2
         else .ok 0) with
  | .error e => .error e
  | .ok timestamp =>
  if timestamp ≥ 60000 then .error .TimestampError else
  match value.get? (value.length - 1) with
  | none => .error .MessageTerminationError
  | some last =>
  if last ≠ 13 then .error .MessageTerminationError else
  .ok (canFrameFromBuilder
        ((((CanFrameBuilder.new.canId can_id identifier_format).frame_type'
            frame_type).setDlc dlc).setData buf |>.setTimestamp timestamp))

/-! ## `src/canusb/mod.rs` — handshake, send, receive, status

The serial port is embedded as a script: `writes` lists the outcome of
each successive `write` call (`some n` = `Ok(n)` bytes reported written,
`none` = `Err`), `reads` lists the outcome of each successive `read` /
`read_exact` call (`some bs` = `Ok` delivering the bytes `bs`, `none` =
`Err`).  A read into a `k`-byte buffer delivers at most `k` bytes, so the
model truncates the scripted bytes to the buffer capacity; undelivered
buffer positions keep their prior contents (zero for the freshly zeroed
buffers the source uses).  Running out of script behaves like `Err`.
The model additionally records the trace of the byte buffers actually
passed to `write`, so that theorems can speak about which commands were
sent. -/

inductive Bitrate where
  | Bitrate10K
  | Bitrate20K
  | Bitrate50K
  | Bitrate100K
  | Bitrate125K
  | Bitrate250K
  | Bitrate500K
  | Bitrate800K
  | Bitrate1M
  | Btr (btr0 btr1 : Nat)
deriving DecidableEq, Repr

structure Status where
  status : Nat
deriving DecidableEq, Repr

inductive LawicelCanUsbBuilderError where
  | SerialPortOpenError
  | LawicelConfigurationError
deriving DecidableEq, Repr

inductive LawicelCanUsbSendError where
  | FormatError
  | SizeMismatchError
  | DataLossError
  | IncorrectResponse
  | UnsuccessfulSend
deriving DecidableEq, Repr

inductive LawicelCanUsbReceiveError where
  | ParseError (e : CanFrameParseError)
  | BufferError
  | IndexingError
deriving DecidableEq, Repr

structure PortScript where
  writes : List (Option Nat)
  reads : List (Option (List Nat))
deriving Repr

/-- Pop the next scripted `write` outcome, recording the buffer written. -/
def portWrite (s : PortScript) (buf : List Nat) (trace : List (List Nat)) :
    Option Nat × PortScript × List (List Nat) :=
  match s.writes with
  | [] => (none, s, trace ++ [buf])
  | w :: ws => (w, { s with writes := ws }, trace ++ [buf])

/-- Pop the next scripted `read` outcome into a buffer of capacity `cap`. -/
def portRead (s : PortScript) (cap : Nat) : Option (List Nat) × PortScript :=
  match s.reads with
  | [] => (none, s)
  | r :: rs => (r.map (fun bs => bs.take cap), { s with reads := rs })

/-- Bitrate command bytes written by the handshake: `S<digit>\r` for a
preset, `s<BTR0hex><BTR1hex>\r` for raw timing registers. -/
def bitrateCommand : Bitrate → List Nat
  | .Bitrate10K => [83, 48, 13]
  | .Bitrate20K => [83, 49, 13]
  | .Bitrate50K => [83, 50, 13]
  | .Bitrate100K => [83, 51, 13]
  | .Bitrate125K => [83, 52, 13]
  | .Bitrate250K => [83, 53, 13]
  | .Bitrate500K => [83, 54, 13]
  | .Bitrate800K => [83, 55, 13]
  | .Bitrate1M => [83, 56, 13]
  | .Btr btr0 btr1 => 115 :: fmtHex 2 btr0 ++ fmtHex 2 btr1 ++ [13]

/-- `expected_size` table of the bitrate write check. -/
def bitrateExpectedSize : Bitrate → Nat
  | .Btr _ _ => 6
  | _ => 3

/-- Final handshake step check (after writing `O\r`): `read` into a fresh
1-byte zero buffer, then
`if (size != 1) && (buf[0] != b'\r') { return Err(...) }` — note the
source's `&&` where earlier steps demand both conditions. -/
def openFinalCheck (r : Option (List Nat)) : Except LawicelCanUsbBuilderError Unit :=
  match r with
  | none => .error .LawicelConfigurationError
  | some bs =>
    let size := bs.length
    let b0 := bs.getD 0 0
    if size ≠ 1 ∧ b0 ≠ 13 then .error .LawicelConfigurationError else .ok ()

/-- `LawicelCanUsbBuilder::open` after a successful serial-port open: the
five-step handshake, returning the outcome together with the trace of
buffers written to the port.  Configuration fields other than
`use_timestamps` and `bitrate` (path, baudrate, acceptance registers,
retries) are not consumed by the handshake. -/
def openHandshake (use_timestamps : Bool) (bitrate : Bitrate) (s : PortScript) :
    Except LawicelCanUsbBuilderError Unit × List (List Nat) :=
  -- step 1: write three CR bytes, read back three CR bytes
  let (w1, s, tr) := portWrite s [13, 13, 13] []
  match w1 with
  | none => (.error .LawicelConfigurationError, tr)
  | some size =>
  if size ≠ 3 then (.error .LawicelConfigurationError, tr) else
  let (r1, s) := portRead s 3
  match r1 with
  | none => (.error .LawicelConfigurationError, tr)
  | some bs =>
  if bs.length ≠ 3 then (.error .LawicelConfigurationError, tr) else
  if bs ++ List.replicate (3 - bs.length) 0 ≠ [13, 13, 13] then
    (.error .LawicelConfigurationError, tr) else
  -- step 2: write C\r (idempotent close), read one byte
  let (w2, s, tr) := portWrite s [67, 13] tr
  match w2 with
  | none => (.error .LawicelConfigurationError, tr)
  | some size =>
  if size ≠ 2 then (.error .LawicelConfigurationError, tr) else
  let (r2, s) := portRead s 1
  match r2 with
  | none => (.error .LawicelConfigurationError, tr)
  | some bs =>
  if bs.length ≠ 1 then (.error .LawicelConfigurationError, tr) else
  -- step 3: write Z1\r or Z0\r, read one byte
  let (w3, s, tr) := portWrite s (if use_timestamps then [90, 49, 13] else [90, 48, 13]) tr
  match w3 with
  | none => (.error .LawicelConfigurationError, tr)
  | some size =>
  if size ≠ 3 then (.error .LawicelConfigurationError, tr) else
  let (r3, s) := portRead s 1
  match r3 with
  | none => (.error .LawicelConfigurationError, tr)
  | some bs =>
  if bs.length ≠ 1 then (.error .LawicelConfigurationError, tr) else
  -- step 4: write the bitrate command, check size, read one byte equal to CR
  let (w4, s, tr) := portWrite s (bitrateCommand bitrate) tr
  match w4 with
  | none => (.error .LawicelConfigurationError, tr)
  | some size =>
  if bitrateExpectedSize bitrate ≠ size then (.error .LawicelConfigurationError, tr) else
  let (r4, s) := portRead s 1
  match r4 with
  | none => (.error .LawicelConfigurationError, tr)
  | some bs =>
  if bs.length ≠ 1 then (.error .LawicelConfigurationError, tr) else
  if bs.getD 0 0 ≠ 13 then (.error .LawicelConfigurationError, tr) else
  -- step 5: write O\r, weak final check
  let (w5, s, tr) := portWrite s [79, 13] tr
  match w5 with
  | none => (.error .LawicelConfigurationError, tr)
  | some size =>
  if size ≠ 2 then (.error .LawicelConfigurationError, tr) else
  let (r5, _) := portRead s 1
  (openFinalCheck r5, tr)

/-- Serialization half of `LawicelCanUsb::send`: marker + identifier hex
+ dlc digit + payload byte pairs + CR, with the computed-length
consistency check (`SizeMismatchError`) and the 27-byte buffer bound
(formatting into a full cursor fails, `FormatError`). -/
def sendSerialize (f : CanFrame) : Except LawicelCanUsbSendError (List Nat) :=
  let body :=
    match f.identifier_format with
    | .Standard => 116 :: fmtHex 3 f.canId ++ fmtHex 1 f.dlc
        ++ f.dataSlice.flatMap (fmtHex 2) ++ [13]
    | .Extended => 84 :: fmtHex 8 f.canId ++ fmtHex 1 f.dlc
        ++ f.dataSlice.flatMap (fmtHex 2) ++ [13]
  let index :=
    match f.identifier_format with
    | .Standard => 1 + 3 + 1 + 2 * f.dlc + 1
    | .Extended => 1 + 8 + 1 + 2 * f.dlc + 1
  if body.length > 27 then .error .FormatError
  else if index ≠ body.length then .error .SizeMismatchError
  else .ok body

/-- Per-byte echo/receive loop of `LawicelCanUsb::recv`: up to `fuel`
`read_exact` attempts into a 31-byte cursor, breaking on CR or BEL;
`Err` reads retry; a successful byte with the cursor full is the
`BufferError` exit.  Returns the accumulated bytes on loop exit. -/
def recvCore (fuel : Nat) (script : List (Option Nat)) (acc : List Nat) :
    Except LawicelCanUsbReceiveError (List Nat) :=
  match fuel with
  | 0 => .ok acc
  | fuel + 1 =>
    match script with
    | [] => recvCore fuel [] acc
    | r :: rest =>
      match r with
      | none => recvCore fuel rest acc
      | some b =>
        if acc.length ≥ 31 then .error .BufferError
        else if b = 13 ∨ b = 7 then .ok (acc ++ [b])
        else recvCore fuel rest (acc ++ [b])

/-- `LawicelCanUsb::recv`: the bounded `for _ in 0..(3*size)` read loop
(`3 * 31 = 93` attempts) followed by `CanFrame::try_from` on the
accumulated slice. -/
def recv (script : List (Option Nat)) : Except LawicelCanUsbReceiveError CanFrame :=
  match recvCore (3 * 31) script [] with
  | .error e => .error e
  | .ok acc =>
    match tryFrom acc with
    | .ok frame => .ok frame
    | .error e => .error (.ParseError e)

/-- Response-decoding half of `LawicelCanUsb::status`: `read` into a fresh
4-byte zero buffer; require exactly 4 bytes; require the pattern
`F`,hexdigit,hexdigit,CR; then `from_str_radix(..).unwrap_or(27)` on the
two middle digits. -/
def statusDecode (r : Option (List Nat)) : Except Unit Status :=
  match r with
  | none => .error ()
  | some bs =>
    let buf := bs ++ List.replicate (4 - bs.length) 0
    if bs.length ≠ 4 then .error ()
    else if buf.getD 0 0 ≠ 70 ∨ ¬isAsciiHexdigit (buf.getD 1 0)
        ∨ ¬isAsciiHexdigit (buf.getD 2 0) ∨ buf.getD 3 0 ≠ 13 then .error ()
    else .ok { status := (parseRadix16 255 [buf.getD 1 0, buf.getD 2 0]).getD 27 }

/-- `LawicelCanUsb::status`: write `F\r` (checking the reported size),
then decode the 4-byte response; returns the written-buffer trace. -/
def statusOp (s : PortScript) : Except Unit Status × List (List Nat) :=
  let (w, s, tr) := portWrite s [70, 13] []
  match w with
  | none => (.error (), tr)
  | some size =>
  if size ≠ 2 then (.error (), tr) else
  let (r, _) := portRead s 4
  (statusDecode r, tr)

/-! ## `src/filter.rs` — acceptance code / mask registers

`from_single_filter` consumes a `cantypes::filter::CanIdFilter`, which is
external to this repository: the trait is embedded as a plain record with
the three accessors (`can_id()`, `mask()`, `mask_type()`) the formulas
use.  Rust's `>> k`, `& 0xFF` and `as u8` on `u32` become `/ 2 ^ k`,
`% 256`; `!mask` is the `u32` complement `0xFFFFFFFF - mask`. -/

inductive MaskType where
  | Standard
  | Extended
deriving DecidableEq, Repr

/-- The `cantypes::filter::CanIdFilter` accessors consumed by
`from_single_filter` (`mask` is a `u32`: supply values `< 2 ^ 32`). -/
structure CanIdFilter where
  can_id : Nat
  mask : Nat
  mask_type : MaskType
deriving DecidableEq, Repr

def STANDARD_FRAME_ID_LENGTH : Nat := 11
def EXTENDED_FRAME_ID_LENGTH : Nat := 29

structure AcceptanceCodeRegister where
  acr0 : Nat
  acr1 : Nat
  acr2 : Nat
  acr3 : Nat
deriving DecidableEq, Repr

/-- `AcceptanceCodeRegister::from_single_filter`. -/
def AcceptanceCodeRegister.from_single_filter (v : CanIdFilter) :
    AcceptanceCodeRegister :=
  match v.mask_type with
  | .Standard =>
    { acr0 := v.can_id / 2 ^ (STANDARD_FRAME_ID_LENGTH - 8) % 256
      acr1 := (v.can_id % 2 ^ 3 * 2 ^ 5 + (2 ^ 5 - 1)) % 256
      acr2 := v.can_id / 2 ^ (STANDARD_FRAME_ID_LENGTH - 8) % 256
      acr3 := (v.can_id % 2 ^ 3 * 2 ^ 5 + (2 ^ 5 - 1)) % 256 }
  | .Extended =>
    { acr0 := v.can_id / 2 ^ (EXTENDED_FRAME_ID_LENGTH - 8) % 256
      acr1 := (v.can_id / 2 ^ (EXTENDED_FRAME_ID_LENGTH - 8 - 5) % 256 * 2 ^ 3
                + (2 ^ 3 - 1)) % 256
      acr2 := v.can_id / 2 ^ (EXTENDED_FRAME_ID_LENGTH - 8) % 256
      acr3 := (v.can_id / 2 ^ (EXTENDED_FRAME_ID_LENGTH - 8 - 5) % 256 * 2 ^ 3
                + (2 ^ 3 - 1)) % 256 }

/-- `impl From<AcceptanceCodeRegister> for u32` (big-endian byte packing). -/
def acrRegister (r : AcceptanceCodeRegister) : Nat :=
  r.acr0 * 2 ^ 24 + r.acr1 * 2 ^ 16 + r.acr2 * 2 ^ 8 + r.acr3

structure AcceptanceMaskRegister where
  amr0 : Nat
  amr1 : Nat
  amr2 : Nat
  amr3 : Nat
deriving DecidableEq, Repr

/-- `AcceptanceMaskRegister::from_single_filter` (same bit layout over the
complemented mask). -/
def AcceptanceMaskRegister.from_single_filter (v : CanIdFilter) :
    AcceptanceMaskRegister :=
  let nm := 0xFFFFFFFF - v.mask
  match v.mask_type with
  | .Standard =>
    { amr0 := nm / 2 ^ (STANDARD_FRAME_ID_LENGTH - 8) % 256
      amr1 := (nm % 2 ^ 3 * 2 ^ 5 + (2 ^ 5 - 1)) % 256
      amr2 := nm / 2 ^ (STANDARD_FRAME_ID_LENGTH - 8) % 256
      amr3 := (nm % 2 ^ 3 * 2 ^ 5 + (2 ^ 5 - 1)) % 256 }
  | .Extended =>
    { amr0 := nm / 2 ^ (EXTENDED_FRAME_ID_LENGTH - 8) % 256
      amr1 := (nm / 2 ^ (EXTENDED_FRAME_ID_LENGTH - 8 - 5) % 256 * 2 ^ 3
                + (2 ^ 3 - 1)) % 256
      amr2 := nm / 2 ^ (EXTENDED_FRAME_ID_LENGTH - 8) % 256
      amr3 := (nm / 2 ^ (EXTENDED_FRAME_ID_LENGTH - 8 - 5) % 256 * 2 ^ 3
                + (2 ^ 3 - 1)) % 256 }

/-- `impl From<AcceptanceMaskRegister> for u32`. -/
def amrRegister (r : AcceptanceMaskRegister) : Nat :=
  r.amr0 * 2 ^ 24 + r.amr1 * 2 ^ 16 + r.amr2 * 2 ^ 8 + r.amr3

/-! ## Concrete frames and byte runs used by individual theorems -/

/-- A concrete data frame exercising `c1_roundtrip_data_frames`. -/
def c1WitnessFrame : CanFrame :=
  ⟨0x613, .Standard, .DataFrame, 2, [1, 2, 0, 0, 0, 0, 0, 0], 0⟩

/-- A frame carrying a non-zero timestamp, as a session opened with
timestamp mode on would produce. -/
def c1TsFrame : CanFrame :=
  ⟨0x123, .Standard, .DataFrame, 0, [0, 0, 0, 0, 0, 0, 0, 0], 200⟩

/-- The spec's length-10 timestamped exemplar `"t613000C8\\r"`. -/
def c5v : List Nat := [116, 54, 49, 51, 48, 48, 48, 67, 56, 13]

/-- Its decoded frame (timestamp 0x00C8 = 200). -/
def c5f : CanFrame := ⟨0x613, .Standard, .DataFrame, 0, [0, 0, 0, 0, 0, 0, 0, 0], 200⟩

/-! ## Lemmas about the hex codec -/

theorem toHexFixed_length (w n : Nat) : (toHexFixed w n).length = w := by
  induction w generalizing n with
  | zero => rfl
  | succ w ih => simp [toHexFixed, ih]

theorem hexDigitChar_lt_128 (n : Nat) (h : n < 16) : hexDigitChar n < 128 := by
  unfold hexDigitChar; split <;> omega

theorem hexDigitChar_ge_48 (n : Nat) : 48 ≤ hexDigitChar n := by
  unfold hexDigitChar; split <;> omega

theorem hexVal_hexDigitChar (n : Nat) (h : n < 16) :
    hexVal (hexDigitChar n) = some n := by
  interval_cases n <;> rfl

theorem toHexFixed_mem_lt_128 (w n : Nat) :
    ∀ c ∈ toHexFixed w n, c < 128 := by
  induction w generalizing n with
  | zero => simp [toHexFixed]
  | succ w ih =>
    intro c hc
    simp only [toHexFixed, List.mem_append, List.mem_singleton] at hc
    rcases hc with hc | hc
    · exact ih _ c hc
    · exact hc ▸ hexDigitChar_lt_128 _ (Nat.mod_lt _ (by omega))

theorem toHexFixed_mem_ge_48 (w n : Nat) :
    ∀ c ∈ toHexFixed w n, 48 ≤ c := by
  induction w generalizing n with
  | zero => simp [toHexFixed]
  | succ w ih =>
    intro c hc
    simp only [toHexFixed, List.mem_append, List.mem_singleton] at hc
    rcases hc with hc | hc
    · exact ih _ c hc
    · exact hc ▸ hexDigitChar_ge_48 _

theorem utf8ValidAux_of_ascii (fuel : Nat) :
    ∀ l : List Nat, (∀ c ∈ l, c < 128) → l.length ≤ fuel →
      utf8ValidAux fuel l = true := by
  induction fuel with
  | zero =>
    intro l h hlen
    match l with
    | [] => rfl
  | succ fuel ih =>
    intro l h hlen
    match l with
    | [] => rfl
    | c :: rest =>
      have hc : c < 128 := h c (List.mem_cons_self c rest)
      rw [utf8ValidAux, if_pos hc]
      exact ih rest (fun x hx => h x (List.mem_cons_of_mem c hx))
        (by simp only [List.length_cons] at hlen; omega)

theorem utf8Valid_of_ascii (l : List Nat) (h : ∀ c ∈ l, c < 128) :
    utf8Valid l = true :=
  utf8ValidAux_of_ascii l.length l h le_rfl

theorem parseHexCore_toHexFixed (w : Nat) :
    ∀ n acc rest, n < 16 ^ w →
      parseHexCore (toHexFixed w n ++ rest) acc = parseHexCore rest (acc * 16 ^ w + n) := by
  induction w with
  | zero =>
    intro n acc rest hn
    interval_cases n
    rw [show toHexFixed 0 0 = [] from rfl, List.nil_append, pow_zero,
      Nat.mul_one, Nat.add_zero]
  | succ w ih =>
    intro n acc rest hn
    have hdiv : n / 16 < 16 ^ w := by
      rw [Nat.div_lt_iff_lt_mul (by omega)]
      calc n < 16 ^ (w + 1) := hn
        _ = 16 ^ w * 16 := by ring
    rw [toHexFixed, List.append_assoc, ih (n / 16) acc _ hdiv]
    show parseHexCore (hexDigitChar (n % 16) :: rest) _ = _
    rw [parseHexCore, hexVal_hexDigitChar _ (Nat.mod_lt _ (by omega))]
    show parseHexCore rest ((acc * 16 ^ w + n / 16) * 16 + n % 16) = _
    congr 1
    calc (acc * 16 ^ w + n / 16) * 16 + n % 16
        = acc * (16 ^ w * 16) + (16 * (n / 16) + n % 16) := by ring
      _ = acc * 16 ^ (w + 1) + n := by rw [Nat.div_add_mod]; ring

theorem parseUCore_toHexFixed (w n max : Nat) (hw : 1 ≤ w) (hn : n < 16 ^ w)
    (hmax : n ≤ max) : parseUCore max (toHexFixed w n) = some n := by
  have hne : toHexFixed w n ≠ [] := by
    intro h
    have := toHexFixed_length w n
    rw [h] at this
    simp at this
    omega
  have hcore : parseHexCore (toHexFixed w n) 0 = some n := by
    have := parseHexCore_toHexFixed w n 0 [] hn
    simpa [parseHexCore] using this
  unfold parseUCore
  rw [if_neg hne, hcore]
  show (if n ≤ max then some n else none) = some n
  rw [if_pos hmax]

theorem parseRadix16_toHexFixed (w n max : Nat) (hw : 1 ≤ w) (hn : n < 16 ^ w)
    (hmax : n ≤ max) : parseRadix16 max (toHexFixed w n) = some n := by
  have hge : ∀ c ∈ toHexFixed w n, 48 ≤ c := toHexFixed_mem_ge_48 w n
  have hu : parseUCore max (toHexFixed w n) = some n :=
    parseUCore_toHexFixed w n max hw hn hmax
  match hl : toHexFixed w n with
  | [] =>
    have := toHexFixed_length w n
    rw [hl] at this
    simp at this
    omega
  | c :: cs =>
    have hc : 48 ≤ c := hge c (by rw [hl]; exact List.mem_cons_self _ _)
    rw [hl] at hu
    rw [parseRadix16, if_neg (by omega), if_neg (by omega)]
    exact hu

theorem parseField_toHexFixed (w n max : Nat) (hw : 1 ≤ w) (hn : n < 16 ^ w)
    (hmax : n ≤ max) : parseField max (toHexFixed w n) = .ok n := by
  unfold parseField
  rw [utf8Valid_of_ascii _ (toHexFixed_mem_lt_128 w n), if_pos rfl,
    parseRadix16_toHexFixed w n max hw hn hmax]

theorem sliceGet_middle (pre mid post : List Nat) :
    sliceGet (pre ++ mid ++ post) pre.length (pre.length + mid.length) = some mid := by
  unfold sliceGet
  rw [if_pos]
  · congr 1
    rw [List.append_assoc, List.drop_left' rfl, Nat.add_sub_cancel_left,
      List.take_left' rfl]
  · constructor
    · omega
    · simp [List.length_append]

theorem parseAt_middle (max : Nat) (pre mid post : List Nat) (n : Nat)
    (hw : 1 ≤ mid.length) (hmid : mid = toHexFixed mid.length n)
    (hn : n < 16 ^ mid.length) (hmax : n ≤ max) :
    parseAt max (pre ++ mid ++ post) pre.length (pre.length + mid.length) = .ok n := by
  unfold parseAt
  rw [sliceGet_middle]
  rw [hmid] at hw hn ⊢
  rw [toHexFixed_length] at hw hn
  exact parseField_toHexFixed _ n max hw hn hmax

theorem fmtHex_of_lt (w n : Nat) (h : n < 16 ^ w) : fmtHex w n = toHexFixed w n := by
  unfold fmtHex
  rw [if_pos h]

theorem flatMapHex_of_lt (bs : List Nat) (h : ∀ b ∈ bs, b < 256) :
    bs.flatMap (fmtHex 2) = bs.flatMap (toHexFixed 2) := by
  induction bs with
  | nil => rfl
  | cons b rest ih =>
    rw [List.flatMap_cons, List.flatMap_cons,
      fmtHex_of_lt 2 b (h b (List.mem_cons_self _ _)),
      ih fun x hx => h x (List.mem_cons_of_mem b hx)]

theorem flatMapHex_length (bs : List Nat) :
    (bs.flatMap (toHexFixed 2)).length = 2 * bs.length := by
  induction bs with
  | nil => rfl
  | cons b rest ih =>
    rw [List.flatMap_cons, List.length_append, ih, toHexFixed_length,
      List.length_cons]
    ring

theorem extractData_encode (bs : List Nat) :
    ∀ pre post : List Nat, (∀ b ∈ bs, b < 256) →
      extractData (pre ++ bs.flatMap (toHexFixed 2) ++ post) pre.length bs.length
        = .ok bs := by
  induction bs with
  | nil => intro pre post _; rfl
  | cons b rest ih =>
    intro pre post h
    have hb : b < 256 := h b (List.mem_cons_self _ _)
    have hlen2 : (toHexFixed 2 b).length = 2 := toHexFixed_length 2 b
    rw [List.length_cons, extractData]
    have hre : pre ++ (b :: rest).flatMap (toHexFixed 2) ++ post
        = pre ++ toHexFixed 2 b ++ (rest.flatMap (toHexFixed 2) ++ post) := by
      rw [List.flatMap_cons]
      simp [List.append_assoc]
    rw [hre]
    have hparse : parseAt 255 (pre ++ toHexFixed 2 b ++ (rest.flatMap (toHexFixed 2) ++ post))
        pre.length (pre.length + 2) = .ok b := by
      have hb2 : b < 16 ^ 2 := lt_of_lt_of_le hb (by norm_num)
      have := parseAt_middle 255 pre (toHexFixed 2 b) (rest.flatMap (toHexFixed 2) ++ post)
        b (by rw [hlen2]; norm_num) (by rw [hlen2]) (by rw [hlen2]; exact hb2) (by omega)
      rwa [hlen2] at this
    rw [hparse]
    have hre2 : pre ++ toHexFixed 2 b ++ (rest.flatMap (toHexFixed 2) ++ post)
        = (pre ++ toHexFixed 2 b) ++ rest.flatMap (toHexFixed 2) ++ post := by
      simp [List.append_assoc]
    have hplen : (pre ++ toHexFixed 2 b).length = pre.length + 2 := by
      rw [List.length_append, hlen2]
    have := ih (pre ++ toHexFixed 2 b) post fun x hx => h x (List.mem_cons_of_mem b hx)
    rw [hplen] at this
    rw [hre2, this]

theorem expectedFormatOfLen_std (d : Nat) (h : d ≤ 8) :
    expectedFormatOfLen (6 + 2 * d) = some .Standard := by
  interval_cases d <;> rfl

theorem expectedFormatOfLen_ext (d : Nat) (h : d ≤ 8) :
    expectedFormatOfLen (11 + 2 * d) = some .Extended := by
  interval_cases d <;> rfl

theorem hasTimestampOfLen_std (d : Nat) (h : d ≤ 8) :
    hasTimestampOfLen (6 + 2 * d) .DataFrame d = .ok false := by
  interval_cases d <;> rfl

theorem hasTimestampOfLen_ext (d : Nat) (h : d ≤ 8) :
    hasTimestampOfLen (11 + 2 * d) .DataFrame d = .ok false := by
  interval_cases d <;> rfl

theorem builder_chain_data (cid ts d : Nat) (fmt : IdentifierFormat) (buf : List Nat)
    (hbuf : buf.length = 8)
    (hcid : cid < match fmt with | .Standard => 2 ^ 11 | .Extended => 2 ^ 29) :
    canFrameFromBuilder ((((CanFrameBuilder.new.canId cid fmt).frame_type'
        .DataFrame).setDlc d).setData buf |>.setTimestamp ts)
      = ⟨cid, fmt, .DataFrame, d, buf, ts⟩ := by
  cases fmt
  all_goals
    simp only at hcid
    simp [CanFrameBuilder.new, CanFrameBuilder.canId, CanFrameBuilder.frame_type',
      CanFrameBuilder.setDlc, CanFrameBuilder.setData, CanFrameBuilder.setTimestamp,
      canFrameFromBuilder, hbuf]
    exact hcid

theorem tryFrom_roundtrip_std (cid d : Nat) (bs : List Nat) (hcid : cid < 2 ^ 11)
    (hd : d ≤ 8) (hbs : bs.length = d) (hlt : ∀ b ∈ bs, b < 256) :
    tryFrom (116 :: toHexFixed 3 cid ++ toHexFixed 1 d ++ bs.flatMap (toHexFixed 2) ++ [13])
      = .ok ⟨cid, .Standard, .DataFrame, d, bs ++ List.replicate (8 - d) 0, 0⟩ := by
  set S1 := toHexFixed 3 cid with hS1
  set S2 := toHexFixed 1 d with hS2
  set P := bs.flatMap (toHexFixed 2) with hP
  have hS1l : S1.length = 3 := toHexFixed_length 3 cid
  have hS2l : S2.length = 1 := toHexFixed_length 1 d
  have hPl : P.length = 2 * d := by rw [hP, flatMapHex_length, hbs]
  set v := 116 :: S1 ++ S2 ++ P ++ [13] with hv
  have hvl : v.length = 6 + 2 * d := by
    simp [hv, List.length_append, hS1l, hS2l, hPl]
    omega
  have h1 : expectedFormatOfLen v.length = some .Standard := by
    rw [hvl]; exact expectedFormatOfLen_std d hd
  have h2 : startMarker .Standard (v.getD 0 0) = some .DataFrame := rfl
  have h3 : parseAt 0xFFFFFFFF v 1 4 = .ok cid := by
    have := parseAt_middle 0xFFFFFFFF [116] S1 (S2 ++ P ++ [13]) cid
      (by rw [hS1l]; norm_num) (by rw [hS1l]) (by rw [hS1l]; omega)
      (le_of_lt (lt_of_lt_of_le hcid (by norm_num)))
    simpa [hS1l] using this
  have h4 : parseAt 255 v 4 5 = .ok d := by
    have := parseAt_middle 255 (116 :: S1) S2 (P ++ [13]) d
      (by rw [hS2l]) (by rw [hS2l]) (by rw [hS2l]; omega) (by omega)
    simpa [hS1l, hS2l, List.length_cons] using this
  have h6 : hasTimestampOfLen v.length .DataFrame d = .ok false := by
    rw [hvl]; exact hasTimestampOfLen_std d hd
  have h7 : extractData v 5 d = .ok bs := by
    have := extractData_encode bs (116 :: S1 ++ S2) [13] hlt
    rw [hbs] at this
    simpa [hS1l, hS2l, List.length_cons, List.length_append] using this
  have h10 : v.get? (v.length - 1) = some 13 := by
    have hfront : (116 :: S1 ++ S2 ++ P).length = 5 + 2 * d := by
      simp [List.length_append, hS1l, hS2l, hPl]
      omega
    have := List.get?_concat_length (116 :: S1 ++ S2 ++ P) 13
    rw [hfront] at this
    have hveq : v = (116 :: S1 ++ S2 ++ P) ++ [13] := by simp [hv]
    rw [hveq, List.length_append, hfront]
    simpa using this
  simp only [tryFrom.eq_def, h1, h2, h3, h4, h6, h7, h10, hbs]
  rw [if_neg (show ¬ d > 8 by omega)]
  norm_num
  exact builder_chain_data cid 0 d .Standard (bs ++ List.replicate (8 - d) 0)
    (by rw [List.length_append, hbs, List.length_replicate]; omega) hcid

theorem tryFrom_roundtrip_ext (cid d : Nat) (bs : List Nat) (hcid : cid < 2 ^ 29)
    (hd : d ≤ 8) (hbs : bs.length = d) (hlt : ∀ b ∈ bs, b < 256) :
    tryFrom (84 :: toHexFixed 8 cid ++ toHexFixed 1 d ++ bs.flatMap (toHexFixed 2) ++ [13])
      = .ok ⟨cid, .Extended, .DataFrame, d, bs ++ List.replicate (8 - d) 0, 0⟩ := by
  set S1 := toHexFixed 8 cid with hS1
  set S2 := toHexFixed 1 d with hS2
  set P := bs.flatMap (toHexFixed 2) with hP
  have hS1l : S1.length = 8 := toHexFixed_length 8 cid
  have hS2l : S2.length = 1 := toHexFixed_length 1 d
  have hPl : P.length = 2 * d := by rw [hP, flatMapHex_length, hbs]
  set v := 84 :: S1 ++ S2 ++ P ++ [13] with hv
  have hvl : v.length = 11 + 2 * d := by
    simp [hv, List.length_append, hS1l, hS2l, hPl]
    omega
  have h1 : expectedFormatOfLen v.length = some .Extended := by
    rw [hvl]; exact expectedFormatOfLen_ext d hd
  have h2 : startMarker .Extended (v.getD 0 0) = some .DataFrame := rfl
  have h3 : parseAt 0xFFFFFFFF v 1 9 = .ok cid := by
    have := parseAt_middle 0xFFFFFFFF [84] S1 (S2 ++ P ++ [13]) cid
      (by rw [hS1l]; norm_num) (by rw [hS1l]) (by rw [hS1l]; omega)
      (le_of_lt (lt_of_lt_of_le hcid (by norm_num)))
    simpa [hS1l] using this
  have h4 : parseAt 255 v 9 10 = .ok d := by
    have := parseAt_middle 255 (84 :: S1) S2 (P ++ [13]) d
      (by rw [hS2l]) (by rw [hS2l]) (by rw [hS2l]; omega) (by omega)
    simpa [hS1l, hS2l, List.length_cons] using this
  have h6 : hasTimestampOfLen v.length .DataFrame d = .ok false := by
    rw [hvl]; exact hasTimestampOfLen_ext d hd
  have h7 : extractData v 10 d = .ok bs := by
    have := extractData_encode bs (84 :: S1 ++ S2) [13] hlt
    rw [hbs] at this
    simpa [hS1l, hS2l, List.length_cons, List.length_append] using this
  have h10 : v.get? (v.length - 1) = some 13 := by
    have hfront : (84 :: S1 ++ S2 ++ P).length = 10 + 2 * d := by
      simp [List.length_append, hS1l, hS2l, hPl]
      omega
    have := List.get?_concat_length (84 :: S1 ++ S2 ++ P) 13
    rw [hfront] at this
    have hveq : v = (84 :: S1 ++ S2 ++ P) ++ [13] := by simp [hv]
    rw [hveq, List.length_append, hfront]
    simpa using this
  simp only [tryFrom.eq_def, h1, h2, h3, h4, h6, h7, h10, hbs]
  rw [if_neg (show ¬ d > 8 by omega)]
  norm_num
  exact builder_chain_data cid 0 d .Extended (bs ++ List.replicate (8 - d) 0)
    (by rw [List.length_append, hbs, List.length_replicate]; omega) hcid

/-! ## Claim theorems -/

/-- C1 (amended): round-trip of the frame codec holds exactly for the
frames `send` can faithfully express — DataFrames with `dlc ≤ 8` and
timestamp `0` (either identifier format): decoding the byte sequence that
`send`'s serialization produces yields a frame equal (by `CanFrame`'s
equality) to the original.  The serializer never emits remote-frame
markers or a timestamp field, so RemoteFrame values and frames carrying a
non-zero timestamp do not round-trip (see the counterexample). -/
theorem c1_roundtrip_data_frames (f : CanFrame)
    (hft : f.frame_type = .DataFrame) (hts : f.timestamp = 0) (hdlc : f.dlc ≤ 8)
    (hlen : f.data.length = 8) (hdata : ∀ b ∈ f.data, b < 256) :
    ∃ bytes g, sendSerialize f = .ok bytes ∧ tryFrom bytes = .ok g
      ∧ canFrameEq g f = true := by
  obtain ⟨id, fmt, ft, d, data, ts⟩ := f
  simp only at hft hts hdlc hlen hdata
  subst hft hts
  have hbs : (data.take d).length = d := by
    rw [List.length_take, hlen]
    omega
  have hblt : ∀ b ∈ data.take d, b < 256 :=
    fun b hb => hdata b (List.take_subset d data hb)
  cases fmt
  case Standard =>
    have hcid : id % 2 ^ 11 < 2 ^ 11 := Nat.mod_lt _ (by norm_num)
    have hcanid : CanFrame.canId ⟨id, .Standard, .DataFrame, d, data, 0⟩
        = id % 2 ^ 11 := rfl
    have hser : sendSerialize ⟨id, .Standard, .DataFrame, d, data, 0⟩
        = .ok (116 :: toHexFixed 3 (id % 2 ^ 11) ++ toHexFixed 1 d
            ++ (data.take d).flatMap (toHexFixed 2) ++ [13]) := by
      unfold sendSerialize
      simp only [hcanid, CanFrame.dataSlice]
      rw [fmtHex_of_lt 3 _ (lt_of_lt_of_le hcid (by norm_num)),
        fmtHex_of_lt 1 d (by omega), flatMapHex_of_lt _ hblt]
      have hl : (116 :: toHexFixed 3 (id % 2 ^ 11) ++ toHexFixed 1 d
          ++ (data.take d).flatMap (toHexFixed 2) ++ [13]).length = 6 + 2 * d := by
        simp only [List.length_cons, List.length_append, toHexFixed_length,
          flatMapHex_length, hbs, List.length_singleton, List.length_nil]
        omega
      rw [if_neg (by rw [hl]; omega), if_neg (by rw [hl]; omega)]
    refine ⟨_, _, hser, tryFrom_roundtrip_std (id % 2 ^ 11) d (data.take d)
      hcid hdlc hbs hblt, ?_⟩
    have hmm : (id % 2 ^ 11) % 2 ^ 11 = id % 2 ^ 11 := Nat.mod_eq_of_lt hcid
    simp [canFrameEq, CanFrame.canId, CanFrame.dataSlice, hmm]
    rw [List.take_left' hbs]
  case Extended =>
    have hcid : id % 2 ^ 29 < 2 ^ 29 := Nat.mod_lt _ (by norm_num)
    have hcanid : CanFrame.canId ⟨id, .Extended, .DataFrame, d, data, 0⟩
        = id % 2 ^ 29 := rfl
    have hser : sendSerialize ⟨id, .Extended, .DataFrame, d, data, 0⟩
        = .ok (84 :: toHexFixed 8 (id % 2 ^ 29) ++ toHexFixed 1 d
            ++ (data.take d).flatMap (toHexFixed 2) ++ [13]) := by
      unfold sendSerialize
      simp only [hcanid, CanFrame.dataSlice]
      rw [fmtHex_of_lt 8 _ (lt_of_lt_of_le hcid (by norm_num)),
        fmtHex_of_lt 1 d (by omega), flatMapHex_of_lt _ hblt]
      have hl : (84 :: toHexFixed 8 (id % 2 ^ 29) ++ toHexFixed 1 d
          ++ (data.take d).flatMap (toHexFixed 2) ++ [13]).length = 11 + 2 * d := by
        simp only [List.length_cons, List.length_append, toHexFixed_length,
          flatMapHex_length, hbs, List.length_singleton, List.length_nil]
        omega
      rw [if_neg (by rw [hl]; omega), if_neg (by rw [hl]; omega)]
    refine ⟨_, _, hser, tryFrom_roundtrip_ext (id % 2 ^ 29) d (data.take d)
      hcid hdlc hbs hblt, ?_⟩
    have hmm : (id % 2 ^ 29) % 2 ^ 29 = id % 2 ^ 29 := Nat.mod_eq_of_lt hcid
    simp [canFrameEq, CanFrame.canId, CanFrame.dataSlice, hmm]
    rw [List.take_left' hbs]

/-- Witness for C1 (amended): the round-trip theorem applied to a
concrete Standard DataFrame with dlc 2. -/
theorem c1_roundtrip_witness :
    ∃ bytes g, sendSerialize c1WitnessFrame = .ok bytes ∧ tryFrom bytes = .ok g
      ∧ canFrameEq g c1WitnessFrame = true :=
  c1_roundtrip_data_frames c1WitnessFrame rfl rfl (by decide) (by decide)
    (by decide)

/-- Counterexample to C1 as stated: with timestamp mode on (timestamp
200), `send`'s serialization emits no timestamp field, so decoding it
yields a frame with timestamp 0 that is *not* equal to the original. -/
theorem c1_counterexample :
    sendSerialize c1TsFrame = .ok [116, 49, 50, 51, 48, 13]
    ∧ tryFrom [116, 49, 50, 51, 48, 13]
        = .ok ⟨0x123, .Standard, .DataFrame, 0, [0, 0, 0, 0, 0, 0, 0, 0], 0⟩
    ∧ canFrameEq ⟨0x123, .Standard, .DataFrame, 0, [0, 0, 0, 0, 0, 0, 0, 0], 0⟩
        c1TsFrame = false :=
  ⟨rfl, rfl, rfl⟩

/-- C6: the decoder's rejection kinds on the spec's four exemplar
inputs: `"x1230\r"` (bad leading marker), `"t12300"` (no trailing CR,
other fields valid), `"t1239\r"` (dlc digit 9), and `"t6130EA60\r"`
(timestamp field 0xEA60 = 60000) — each a specific member of the closed
parse-error enumeration. -/
theorem c6_rejection_kinds :
    tryFrom [120, 49, 50, 51, 48, 13] = .error .MessageStartError
    ∧ tryFrom [116, 49, 50, 51, 48, 48] = .error .MessageTerminationError
    ∧ tryFrom [116, 49, 50, 51, 57, 13] = .error .DlcError
    ∧ tryFrom [116, 54, 49, 51, 48, 69, 65, 54, 48, 13] = .error .TimestampError :=
  ⟨rfl, rfl, rfl, rfl⟩

/-- C7 (amended): the acceptance-filter register derivation on the two
exemplar filters, with the mask that denotes an exact match under the
code's convention: the mask register stores the bitwise complement of the
supplied mask, so an exact-match filter carries an all-ones mask
(`0x7FF` Standard / `0x1FFFFFFF` Extended), not mask 0. -/
theorem c7_filter_registers :
    acrRegister (AcceptanceCodeRegister.from_single_filter
      ⟨0x601, 0x7FF, .Standard⟩) = 0xC03FC03F
    ∧ amrRegister (AcceptanceMaskRegister.from_single_filter
      ⟨0x601, 0x7FF, .Standard⟩) = 0x001F001F
    ∧ acrRegister (AcceptanceCodeRegister.from_single_filter
      ⟨0x18DA0000, 0x1FFFFFFF, .Extended⟩) = 0xC6D7C6D7
    ∧ amrRegister (AcceptanceMaskRegister.from_single_filter
      ⟨0x18DA0000, 0x1FFFFFFF, .Extended⟩) = 0x00070007 := by
  refine ⟨by decide, by decide, by decide, by decide⟩

/-- Counterexample to C7 as stated: supplying mask 0 (as the claim
words it) complements to all-ones and produces mask register
`0xFFFFFFFF`, not `0x001F001F` / `0x00070007`. -/
theorem c7_counterexample :
    amrRegister (AcceptanceMaskRegister.from_single_filter
      ⟨0x601, 0, .Standard⟩) = 0xFFFFFFFF
    ∧ amrRegister (AcceptanceMaskRegister.from_single_filter
      ⟨0x601, 0, .Standard⟩) ≠ 0x001F001F
    ∧ amrRegister (AcceptanceMaskRegister.from_single_filter
      ⟨0x18DA0000, 0, .Extended⟩) = 0xFFFFFFFF
    ∧ amrRegister (AcceptanceMaskRegister.from_single_filter
      ⟨0x18DA0000, 0, .Extended⟩) ≠ 0x00070007 := by
  refine ⟨by decide, by decide, by decide, by decide⟩

/-- C8: identifier masking at construction: `CanFrameBuilder::can_id`
masks every `u32` input to 11 bits (Standard) or 29 bits (Extended),
total — never rejecting; in particular a Standard frame built with
`0x1FFF` reports identifier `0x7FF` and an Extended frame built with
`0xFFFFFFFF` reports `0x1FFFFFFF`. -/
theorem c8_identifier_masking :
    (∀ (id : Nat) (b : CanFrameBuilder), (b.canId id .Standard).can_id = id % 2 ^ 11)
    ∧ (∀ (id : Nat) (b : CanFrameBuilder), (b.canId id .Extended).can_id = id % 2 ^ 29)
    ∧ CanFrame.canId (canFrameFromBuilder (CanFrameBuilder.new.canId 0x1FFF .Standard))
        = 0x7FF
    ∧ CanFrame.canId (canFrameFromBuilder (CanFrameBuilder.new.canId 0xFFFFFFFF .Extended))
        = 0x1FFFFFFF :=
  ⟨fun _ _ => rfl, fun _ _ => rfl, by decide, by decide⟩

/-- Counterexample to C5 as stated: the length-10 run `"r123201C8\r"`
has dlc digit `2` and decodes successfully, but — being a remote-frame
run, whose length-10 interpretation carries a timestamp — the result has
timestamp 456, not 0. -/
theorem c5_counterexample :
    tryFrom [114, 49, 50, 51, 50, 48, 49, 67, 56, 13]
      = .ok ⟨0x123, .Standard, .DataFrame, 2, [0, 0, 0, 0, 0, 0, 0, 0], 456⟩
    ∧ (456 : Nat) ≠ 0 :=
  ⟨rfl, by decide⟩

/-- Counterexample to C3 as stated: a well-framed 4-byte status response
`F`,`G`,`G`,CR with malformed hex digits makes `status()` fail with an
error — it does not return a sentinel-carrying `Status`. -/
theorem c3_counterexample :
    statusDecode (some [70, 71, 71, 13]) = .error ()
    ∧ (statusOp ⟨[some 2], [some [70, 71, 71, 13]]⟩).1 = .error () :=
  ⟨rfl, rfl⟩

/-- Counterexample to C10 as stated: when all 93 read attempts fail and
the bound is exhausted without a terminator, `recv` returns the
parse-error kind (wrapping invalid-size), not a buffer/indexing error. -/
theorem c10_counterexample :
    recv (List.replicate 93 none) = .error (.ParseError .InvalidSize) := rfl

theorem tryFrom_ok_shape (v : List Nat) (f : CanFrame) (h : tryFrom v = .ok f) :
    f.frame_type = .DataFrame := by
  rw [tryFrom.eq_def] at h
  repeat' split at h
  all_goals first
    | (rw [← Except.ok.inj h]; rfl)
    | exact absurd h (by simp)

theorem tryFrom_ok_last_cr (v : List Nat) (f : CanFrame) (h : tryFrom v = .ok f) :
    v.get? (v.length - 1) = some 13 := by
  rw [tryFrom.eq_def] at h
  repeat' split at h
  all_goals first
    | exact Except.noConfusion h
    | simp_all

/-- C2: every `CanFrame` constructible through the public interface has
frame type `DataFrame`: the builder-to-frame conversion hardcodes
`FrameType::DataFrame`, `CanFrameBuilder::frame_type` never stores the
requested frame type, and consequently every successfully decoded byte
run — including ones starting with `r`/`R` — yields a frame whose
`is_remote_frame()` is `false`. -/
theorem c2_always_data_frame :
    (∀ b : CanFrameBuilder, (canFrameFromBuilder b).frame_type = .DataFrame)
    ∧ (∀ (b : CanFrameBuilder) (ft : FrameType),
        (b.frame_type' ft).frame_type = b.frame_type)
    ∧ (∀ (v : List Nat) (f : CanFrame), tryFrom v = .ok f →
        f.is_remote_frame = false) := by
  refine ⟨fun b => rfl, fun b ft => ?_, fun v f h => ?_⟩
  · unfold CanFrameBuilder.frame_type'
    repeat' split
    all_goals rfl
  · have := tryFrom_ok_shape v f h
    unfold CanFrame.is_remote_frame
    rw [this]

/-- Witness for C2: decoding the remote-frame run `"r6120\r"` succeeds
and the resulting frame reports `is_remote_frame() = false`. -/
theorem c2_witness :
    tryFrom [114, 54, 49, 50, 48, 13]
      = .ok ⟨0x612, .Standard, .DataFrame, 0, [0, 0, 0, 0, 0, 0, 0, 0], 0⟩
    ∧ CanFrame.is_remote_frame
        ⟨0x612, .Standard, .DataFrame, 0, [0, 0, 0, 0, 0, 0, 0, 0], 0⟩ = false :=
  ⟨rfl, c2_always_data_frame.2.2 [114, 54, 49, 50, 48, 13] _ rfl⟩

/-- C4: the final handshake step of `open()` (after writing `O\r`) reads
into a freshly zeroed 1-byte buffer and returns the configuration-error
kind exactly when the read does not deliver one byte; its acceptance
check is the weaker disjunction (byte count = 1 OR buffer byte = CR)
where the earlier steps demand conjunctions. -/
theorem c4_open_final_step :
    (∀ r : Option (List Nat),
      openFinalCheck (r.map (fun bs => bs.take 1)) = .error .LawicelConfigurationError
        ↔ (r = none ∨ r = some []))
    ∧ (∀ bs : List Nat, openFinalCheck (some bs) = .ok ()
        ↔ (bs.length = 1 ∨ bs.getD 0 0 = 13)) := by
  constructor
  · intro r
    match r with
    | none => simp [openFinalCheck]
    | some [] => simp [openFinalCheck]
    | some (b :: rest) => simp [openFinalCheck]
  · intro bs
    simp only [openFinalCheck]
    split
    · rename_i hcond
      constructor
      · intro hcontra
        exact absurd hcontra (by simp)
      · intro hor
        rcases hcond with ⟨h1, h2⟩
        rcases hor with hor | hor
        · exact absurd hor h1
        · exact absurd hor h2
    · rename_i hcond
      rw [not_and_or, not_not, not_not] at hcond
      simpa [List.getD_eq_getElem?_getD] using hcond

theorem recvCore_take (fuel : Nat) :
    ∀ (script : List (Option Nat)) (acc : List Nat),
      recvCore fuel script acc = recvCore fuel (script.take fuel) acc := by
  induction fuel with
  | zero => intro script acc; rfl
  | succ fuel ih =>
    intro script acc
    match script with
    | [] => rfl
    | none :: rest =>
      rw [List.take_succ_cons]
      show recvCore fuel rest acc = recvCore fuel (rest.take fuel) acc
      exact ih rest acc
    | some b :: rest =>
      rw [List.take_succ_cons]
      show (if acc.length ≥ 31 then (.error .BufferError : Except LawicelCanUsbReceiveError (List Nat))
            else if b = 13 ∨ b = 7 then .ok (acc ++ [b])
            else recvCore fuel rest (acc ++ [b]))
          = (if acc.length ≥ 31 then .error .BufferError
            else if b = 13 ∨ b = 7 then .ok (acc ++ [b])
            else recvCore fuel (rest.take fuel) (acc ++ [b]))
      split
      · rfl
      · split
        · rfl
        · exact ih rest (acc ++ [b])

theorem recvCore_no_term (fuel : Nat) :
    ∀ (script : List (Option Nat)) (acc : List Nat),
      (∀ r ∈ script, ∀ b : Nat, r = some b → b ≠ 13 ∧ b ≠ 7) →
      13 ∉ acc →
      (recvCore fuel script acc = .error .BufferError
        ∨ ∃ acc', recvCore fuel script acc = .ok acc' ∧ 13 ∉ acc') := by
  induction fuel with
  | zero =>
    intro script acc _ hacc
    exact Or.inr ⟨acc, rfl, hacc⟩
  | succ fuel ih =>
    intro script acc hs hacc
    match script with
    | [] =>
      have : recvCore (fuel + 1) ([] : List (Option Nat)) acc = recvCore fuel [] acc := rfl
      rw [this]
      exact ih [] acc (by simp) hacc
    | none :: rest =>
      show (recvCore fuel rest acc = .error .BufferError ∨ _)
      exact ih rest acc (fun r hr => hs r (List.mem_cons_of_mem _ hr)) hacc
    | some b :: rest =>
      have hb : b ≠ 13 ∧ b ≠ 7 := hs (some b) (List.mem_cons_self _ _) b rfl
      have hstep : recvCore (fuel + 1) (some b :: rest) acc
          = (if acc.length ≥ 31 then (.error .BufferError : Except LawicelCanUsbReceiveError (List Nat))
            else if b = 13 ∨ b = 7 then .ok (acc ++ [b])
            else recvCore fuel rest (acc ++ [b])) := rfl
      rw [hstep]
      split
      · exact Or.inl rfl
      · rw [if_neg (by tauto)]
        refine ih rest (acc ++ [b]) (fun r hr => hs r (List.mem_cons_of_mem _ hr)) ?_
        simp [hacc]
        omega

/-- C10 (amended): `recv` makes at most 3 x 31 = 93 per-byte read
attempts — its result only depends on the first 93 scripted read
outcomes — and when that bound is exhausted without a CR or BEL
terminator the call returns an error rather than looping forever: a
buffer error when more than 31 bytes accumulated, otherwise a
parse-error kind (the claim's buffer/indexing kind is wrong for the
plain exhaustion case — see the counterexample). -/
theorem c10_recv_bound :
    (∀ script : List (Option Nat), recv script = recv (script.take 93))
    ∧ (∀ script : List (Option Nat),
        (∀ r ∈ script, ∀ b : Nat, r = some b → b ≠ 13 ∧ b ≠ 7) →
        (recv script = .error .BufferError
          ∨ ∃ pe, recv script = .error (.ParseError pe))) := by
  have h93 : (3 * 31 : Nat) = 93 := rfl
  constructor
  · intro script
    unfold recv
    rw [h93, recvCore_take 93 script [], recvCore_take 93 (script.take 93) [],
      List.take_take]
  · intro script hs
    rcases recvCore_no_term 93 script [] hs (by simp) with h | ⟨acc', hok, hni⟩
    · left
      unfold recv
      rw [h93, h]
    · have hr : recv script
          = (match tryFrom acc' with
             | .ok frame => (.ok frame : Except LawicelCanUsbReceiveError CanFrame)
             | .error e => .error (.ParseError e)) := by
        unfold recv
        rw [h93, hok]
      cases htf : tryFrom acc' with
      | error e =>
        right
        exact ⟨e, by rw [hr, htf]⟩
      | ok f =>
        exfalso
        have hcr := tryFrom_ok_last_cr acc' f htf
        exact hni (List.get?_mem hcr)

/-- Witness for C10 (amended): a 95-entry all-failing script — `recv`
equals its 93-entry truncation and returns an error. -/
theorem c10_witness :
    recv (List.replicate 95 none) = recv ((List.replicate 95 none).take 93)
    ∧ (recv (List.replicate 95 none) = .error .BufferError
      ∨ ∃ pe, recv (List.replicate 95 none) = .error (.ParseError pe)) :=
  ⟨c10_recv_bound.1 _, c10_recv_bound.2 _ (fun r hr b hb => by
    have := List.eq_of_mem_replicate hr
    subst this
    exact absurd hb (by simp))⟩

/-- C9: handshake abort on the flush step: when the flush write reports
3 bytes written but the subsequent read delivers fewer than 3 bytes,
`open()` returns the configuration-error kind and the transport write
trace contains only the flush bytes — no close/timestamp/bitrate/open
command is ever written. -/
theorem c9_flush_abort (uts : Bool) (br : Bitrate) (ws : List (Option Nat))
    (rs : List (Option (List Nat))) (bs : List Nat) (hb : bs.length < 3) :
    openHandshake uts br ⟨some 3 :: ws, some bs :: rs⟩
      = (.error .LawicelConfigurationError, [[13, 13, 13]]) := by
  have h1 : (bs.take 3).length ≠ 3 := by rw [List.length_take]; omega
  simp only [openHandshake, portWrite, portRead]
  rw [if_neg (show ¬(3 : Nat) ≠ 3 by omega)]
  simp only [Option.map_some']
  rw [if_pos h1]
  simp

/-- Witness for C9: a concrete script whose flush read delivers only two
bytes. -/
theorem c9_witness :
    openHandshake false .Bitrate500K ⟨[some 3], [some [13, 13]]⟩
      = (.error .LawicelConfigurationError, [[13, 13, 13]]) :=
  c9_flush_abort false .Bitrate500K [] [] [13, 13] (by decide)

theorem hexVal_isAscii (c d : Nat) (h : hexVal c = some d) :
    isAsciiHexdigit c = true := by
  unfold hexVal at h
  unfold isAsciiHexdigit
  split_ifs at h with h1 h2 h3 <;> simp_all

theorem hexVal_le_15 (c d : Nat) (h : hexVal c = some d) : d ≤ 15 := by
  unfold hexVal at h
  split_ifs at h with h1 h2 h3 <;> simp_all <;> omega

theorem hexVal_ge_48 (c d : Nat) (h : hexVal c = some d) : 48 ≤ c := by
  unfold hexVal at h
  split_ifs at h with h1 h2 h3 <;> simp_all <;> omega

/-- C3 (amended): `status()` writes exactly `F\\r`, requires exactly 4
response bytes, and requires the pattern `F`,hexdigit,hexdigit,CR — a
well-framed response whose two middle hex digits are malformed makes the
call fail with an error.  When both digits are valid the returned
`Status` carries their parsed value: the `unwrap_or(27)` sentinel
fallback in the source is unreachable because the digits are validated
before parsing. -/
theorem c3_status_strict :
    (∀ s : PortScript, (statusOp s).2 = [[70, 13]])
    ∧ (∀ bs : List Nat, bs.length ≠ 4 → statusDecode (some bs) = .error ())
    ∧ (∀ b1 b2 : Nat, ¬(isAsciiHexdigit b1 = true ∧ isAsciiHexdigit b2 = true) →
        statusDecode (some [70, b1, b2, 13]) = .error ())
    ∧ (∀ b1 b2 d1 d2 : Nat, hexVal b1 = some d1 → hexVal b2 = some d2 →
        statusDecode (some [70, b1, b2, 13]) = .ok ⟨d1 * 16 + d2⟩) := by
  refine ⟨?_, ?_, ?_, ?_⟩
  · intro s
    rcases s with ⟨ws, rs⟩
    match ws with
    | [] => rfl
    | none :: ws => rfl
    | some size :: ws =>
      simp only [statusOp, portWrite, portRead]
      split
      · rfl
      · match rs with
        | [] => rfl
        | r :: rs => rfl
  · intro bs h
    simp only [statusDecode]
    rw [if_pos h]
  · intro b1 b2 h
    simp only [statusDecode]
    split
    · rfl
    · split
      · rfl
      · rename_i hA hB
        exfalso
        apply hB
        rcases not_and_or.mp h with hh | hh
        · exact Or.inr (Or.inl (by simpa using hh))
        · exact Or.inr (Or.inr (Or.inl (by simpa using hh)))
  · intro b1 b2 d1 d2 h1 h2
    have ha1 := hexVal_isAscii b1 d1 h1
    have ha2 := hexVal_isAscii b2 d2 h2
    have hge1 := hexVal_ge_48 b1 d1 h1
    have hle1 := hexVal_le_15 b1 d1 h1
    have hle2 := hexVal_le_15 b2 d2 h2
    have hcore : parseHexCore [b1, b2] 0 = some (d1 * 16 + d2) := by
      show (match hexVal b1 with
            | none => none
            | some d => parseHexCore [b2] (0 * 16 + d)) = _
      rw [h1]
      show (match hexVal b2 with
            | none => none
            | some d => parseHexCore [] ((0 * 16 + d1) * 16 + d)) = _
      rw [h2]
      show some ((0 * 16 + d1) * 16 + d2) = _
      congr 1
      ring
    have hparse : parseRadix16 255 [b1, b2] = some (d1 * 16 + d2) := by
      show (if b1 = 43 then parseUCore 255 [b2]
            else if b1 = 45 then parseNegCore [b2]
            else parseUCore 255 [b1, b2]) = _
      rw [if_neg (by omega), if_neg (by omega)]
      unfold parseUCore
      rw [if_neg (by simp), hcore]
      show (if d1 * 16 + d2 ≤ 255 then some (d1 * 16 + d2) else none) = _
      rw [if_pos (by omega)]
    simp only [statusDecode]
    rw [if_neg (by simp)]
    rw [if_neg (by simp [ha1, ha2])]
    simp [hparse]


/-- Witness for C3 (amended): the well-formed response `F05\\r` decodes
to status byte 0x05. -/
theorem c3_witness : statusDecode (some [70, 48, 53, 13]) = .ok ⟨5⟩ :=
  c3_status_strict.2.2.2 48 53 0 5 rfl rfl

theorem exists_ten (v : List Nat) (h : v.length = 10) :
    ∃ a0 a1 a2 a3 a4 a5 a6 a7 a8 a9,
      v = [a0, a1, a2, a3, a4, a5, a6, a7, a8, a9] := by
  rcases v with _ | ⟨a0, v⟩; · simp at h
  rcases v with _ | ⟨a1, v⟩; · simp at h
  rcases v with _ | ⟨a2, v⟩; · simp at h
  rcases v with _ | ⟨a3, v⟩; · simp at h
  rcases v with _ | ⟨a4, v⟩; · simp at h
  rcases v with _ | ⟨a5, v⟩; · simp at h
  rcases v with _ | ⟨a6, v⟩; · simp at h
  rcases v with _ | ⟨a7, v⟩; · simp at h
  rcases v with _ | ⟨a8, v⟩; · simp at h
  rcases v with _ | ⟨a9, v⟩; · simp at h
  rcases v with _ | ⟨a10, v⟩
  · exact ⟨a0, a1, a2, a3, a4, a5, a6, a7, a8, a9, rfl⟩
  · simp at h

theorem c5_part_a (v : List Nat) (f : CanFrame) (hlen : v.length = 10)
    (h4 : v.getD 4 0 = 48) (htf : tryFrom v = .ok f) :
    f.identifier_format = .Standard ∧ f.frame_type = .DataFrame ∧ f.dlc = 0
      ∧ parseAt 65535 v 5 9 = .ok f.timestamp := by
  obtain ⟨a0, a1, a2, a3, a4, a5, a6, a7, a8, a9, rfl⟩ := exists_ten v hlen
  have ha4 : a4 = 48 := by simpa using h4
  subst ha4
  rw [tryFrom.eq_def] at htf
  simp only [show ([a0, a1, a2, a3, 48, a5, a6, a7, a8, a9] : List Nat).length = 10 from rfl,
    show expectedFormatOfLen 10 = some .Standard from rfl,
    show ([a0, a1, a2, a3, 48, a5, a6, a7, a8, a9] : List Nat).getD 0 0 = a0 from rfl,
    show parseAt 255 [a0, a1, a2, a3, 48, a5, a6, a7, a8, a9] 4 5 = .ok 0 from rfl] at htf
  rcases hmt : startMarker .Standard a0 with _ | ft
  · rw [hmt] at htf
    exact absurd htf (by simp)
  · rw [hmt] at htf
    cases ft <;>
    · simp only [show hasTimestampOfLen 10 .DataFrame 0 = .ok true from rfl,
        show hasTimestampOfLen 10 .RemoteFrame 0 = .ok true from rfl,
        show timestampRange .Standard .DataFrame 0 = (5, 9) from rfl,
        show timestampRange .Standard .RemoteFrame 0 = (5, 9) from rfl,
        show extractData [a0, a1, a2, a3, 48, a5, a6, a7, a8, a9] 5 0 = .ok [] from rfl,
        show ([a0, a1, a2, a3, 48, a5, a6, a7, a8, a9] : List Nat).get? (10 - 1)
          = some a9 from rfl] at htf
      norm_num at htf
      rcases hcid : parseAt 4294967295 [a0, a1, a2, a3, 48, a5, a6, a7, a8, a9] 1 4 with e | cid
      · simp only [hcid] at htf
        exact absurd htf (by simp)
      · simp only [hcid] at htf
        rcases hts : parseAt 65535 [a0, a1, a2, a3, 48, a5, a6, a7, a8, a9] 5 9 with e | ts
        · simp only [hts] at htf
          exact absurd htf (by simp)
        · simp only [hts] at htf
          by_cases h60 : 60000 ≤ ts
          · rw [if_pos h60] at htf
            exact absurd htf (by simp)
          · rw [if_neg h60] at htf
            by_cases h13 : a9 = 13
            · rw [if_pos h13] at htf
              have hf : f = _ := (Except.ok.inj htf).symm
              subst hf
              exact ⟨rfl, rfl, rfl, rfl⟩
            · rw [if_neg h13] at htf
              exact absurd htf (by simp)

theorem hexVal_le_102 (c d : Nat) (h : hexVal c = some d) : c ≤ 102 := by
  unfold hexVal at h
  split_ifs at h with h1 h2 h3 <;> simp_all <;> omega

theorem parseField_single (c d : Nat) (h : hexVal c = some d) :
    parseField 255 [c] = .ok d := by
  have hge := hexVal_ge_48 c d h
  have h102 := hexVal_le_102 c d h
  have hle := hexVal_le_15 c d h
  have hradix : parseRadix16 255 [c] = some d := by
    show (if c = 43 then parseUCore 255 []
          else if c = 45 then parseNegCore []
          else parseUCore 255 [c]) = _
    rw [if_neg (by omega), if_neg (by omega)]
    unfold parseUCore
    rw [if_neg (by simp)]
    have hc : parseHexCore [c] 0 = some d := by
      show (match hexVal c with
            | none => none
            | some dd => parseHexCore [] (0 * 16 + dd)) = _
      rw [h]
      show some (0 * 16 + d) = some d
      congr 1
      omega
    rw [hc]
    show (if d ≤ 255 then some d else none) = _
    rw [if_pos (by omega)]
  unfold parseField
  rw [utf8Valid_of_ascii [c] (by intro x hx; simp at hx; omega), if_pos rfl, hradix]

theorem c5_part_b (v : List Nat) (f : CanFrame) (hlen : v.length = 10)
    (h0 : v.getD 0 0 = 116) (h4 : v.getD 4 0 = 50) (htf : tryFrom v = .ok f) :
    f.identifier_format = .Standard ∧ f.frame_type = .DataFrame ∧ f.dlc = 2
      ∧ f.timestamp = 0 := by
  obtain ⟨a0, a1, a2, a3, a4, a5, a6, a7, a8, a9, rfl⟩ := exists_ten v hlen
  have ha0 : a0 = 116 := by simpa using h0
  subst ha0
  have ha4 : a4 = 50 := by simpa using h4
  subst ha4
  rw [tryFrom.eq_def] at htf
  simp only [show ([116, a1, a2, a3, 50, a5, a6, a7, a8, a9] : List Nat).length = 10 from rfl,
    show expectedFormatOfLen 10 = some .Standard from rfl,
    show ([116, a1, a2, a3, 50, a5, a6, a7, a8, a9] : List Nat).getD 0 0 = 116 from rfl,
    show startMarker .Standard 116 = some .DataFrame from rfl,
    show parseAt 255 [116, a1, a2, a3, 50, a5, a6, a7, a8, a9] 4 5 = .ok 2 from rfl,
    show hasTimestampOfLen 10 .DataFrame 2 = .ok false from rfl,
    show ([116, a1, a2, a3, 50, a5, a6, a7, a8, a9] : List Nat).get? (10 - 1)
      = some a9 from rfl] at htf
  norm_num at htf
  rcases hcid : parseAt 4294967295 [116, a1, a2, a3, 50, a5, a6, a7, a8, a9] 1 4 with e | cid
  · simp only [hcid] at htf
    exact absurd htf (by simp)
  · simp only [hcid] at htf
    rcases hed : extractData [116, a1, a2, a3, 50, a5, a6, a7, a8, a9] 5 2 with e | bytes
    · simp only [hed] at htf
      exact absurd htf (by simp)
    · simp only [hed] at htf
      by_cases h13 : a9 = 13
      · rw [if_pos h13] at htf
        have hf : f = _ := (Except.ok.inj htf).symm
        subst hf
        exact ⟨rfl, rfl, rfl, rfl⟩
      · rw [if_neg h13] at htf
        exact absurd htf (by simp)

theorem c5_part_c (v : List Nat) (d cid : Nat) (hlen : v.length = 10)
    (h0 : v.getD 0 0 = 116) (h4 : hexVal (v.getD 4 0) = some d)
    (hd0 : d ≠ 0) (hd2 : d ≠ 2)
    (hcid : parseAt 0xFFFFFFFF v 1 4 = .ok cid) :
    tryFrom v = .error .DlcError := by
  obtain ⟨a0, a1, a2, a3, a4, a5, a6, a7, a8, a9, rfl⟩ := exists_ten v hlen
  have ha0 : a0 = 116 := by simpa using h0
  subst ha0
  have ha4 : hexVal a4 = some d := by simpa using h4
  have hdlc : parseAt 255 [116, a1, a2, a3, a4, a5, a6, a7, a8, a9] 4 5 = .ok d := by
    show parseField 255 [a4] = .ok d
    exact parseField_single a4 d ha4
  rw [tryFrom.eq_def]
  simp only [show ([116, a1, a2, a3, a4, a5, a6, a7, a8, a9] : List Nat).length = 10 from rfl,
    show expectedFormatOfLen 10 = some .Standard from rfl,
    show ([116, a1, a2, a3, a4, a5, a6, a7, a8, a9] : List Nat).getD 0 0 = 116 from rfl,
    show startMarker .Standard 116 = some .DataFrame from rfl,
    hcid, hdlc]
  by_cases hd8 : d > 8
  · rw [if_pos hd8]
  · rw [if_neg hd8]
    have h6 : hasTimestampOfLen 10 .DataFrame d = .error .DlcError := by
      interval_cases d <;> first | rfl | omega
    simp only [h6]

/-- C5 (amended): length-based disambiguation at total length 10.  Any
length-10 run whose dlc digit is `0` that decodes successfully yields a
Standard DataFrame whose timestamp is the parsed 4-hex-digit field at
positions 5..9.  A length-10 *data-frame* run (leading `t`) whose dlc
digit is `2` yields a Standard DataFrame with timestamp 0; the leading-`t`
restriction is forced by the counterexample — a remote-marker run with
dlc digit 2 carries a timestamp.  A length-10 data-frame run whose valid
hex dlc digit is anything other than 0 or 2 (with the identifier field
parsing) is rejected with the dlc-error kind. -/
theorem c5_length10_disambiguation :
    (∀ (v : List Nat) (f : CanFrame), v.length = 10 → v.getD 4 0 = 48 →
      tryFrom v = .ok f →
      f.identifier_format = .Standard ∧ f.frame_type = .DataFrame ∧ f.dlc = 0
        ∧ parseAt 65535 v 5 9 = .ok f.timestamp)
    ∧ (∀ (v : List Nat) (f : CanFrame), v.length = 10 → v.getD 0 0 = 116 →
        v.getD 4 0 = 50 → tryFrom v = .ok f →
        f.identifier_format = .Standard ∧ f.frame_type = .DataFrame ∧ f.dlc = 2
          ∧ f.timestamp = 0)
    ∧ (∀ (v : List Nat) (d cid : Nat), v.length = 10 → v.getD 0 0 = 116 →
        hexVal (v.getD 4 0) = some d → d ≠ 0 → d ≠ 2 →
        parseAt 0xFFFFFFFF v 1 4 = .ok cid → tryFrom v = .error .DlcError) :=
  ⟨c5_part_a, c5_part_b, c5_part_c⟩

/-- Witness for C5 (amended): the dlc-digit-0 part applied to the
concrete run `"t613000C8\\r"`. -/
theorem c5_witness :
    c5f.identifier_format = .Standard ∧ c5f.frame_type = .DataFrame ∧ c5f.dlc = 0
      ∧ parseAt 65535 c5v 5 9 = .ok c5f.timestamp :=
  c5_length10_disambiguation.1 c5v c5f rfl rfl rfl

end CanUsb
